import Mathlib

/-!
Verification of the tool layer of the course-material RAG backend
(`backend/search_tools.py`): the content-search tool, the course-outline
tool, and the tool manager that registers and dispatches them.

Python values that the code tests for truthiness are modelled explicitly:
an optional string is truthy when present and non-empty, an optional
integer when present and non-zero, an optional list when present and
non-empty.  Collaborators that live outside the tool layer (the vector
store and the JSON decoder) are modelled by the values they return.
-/

/-- Python truthiness of an optional string: `None` and `""` are falsy. -/
def pyTruthyStr : Option String → Bool
  | none => false
  | some s => !(s == "")

/-- Python truthiness of an optional integer: `None` and `0` are falsy. -/
def pyTruthyInt : Option Int → Bool
  | none => false
  | some n => !(n == 0)

/-- Python rendering of an optional integer inside an f-string:
`None` prints as `"None"`. -/
def pyStrOptInt : Option Int → String
  | none => "None"
  | some n => toString n

/-- A citation shown to the UI: display text plus optional deep link
(`models.Source`). -/
structure Source where
  text : String
  link : Option String
deriving DecidableEq, Repr

/-- Per-hit metadata stored alongside a retrieved chunk: the course title
and, when the chunk belongs to a lesson, its number.  Python reads these
with `meta.get`, so both fields are optional. -/
structure ChunkMeta where
  course_title : Option String
  lesson_number : Option Int
deriving DecidableEq, Repr

/-- Modelled from the spec: the retrieval collaborator's hit set
`{documents, metadata, distances, error?}` (`vector_store.SearchResults`,
outside the tool layer).  Distances are not consulted by the tools and are
omitted. -/
structure SearchResults where
  documents : List String
  metadata : List ChunkMeta
  error : Option String
deriving DecidableEq, Repr

/-- Modelled from the spec: a search "returns no hits" when the document
list is empty (`SearchResults.is_empty`). -/
def SearchResults.is_empty (r : SearchResults) : Bool :=
  r.documents.isEmpty

namespace CourseSearchTool

/-- One iteration of the loop in `CourseSearchTool._format_results`:
render the context header plus document, and build the hit's `Source`.
The lesson link is fetched only when the hit carries a lesson number. -/
def format_hit (get_lesson_link : String → Int → Option String)
    (doc : String) (meta : ChunkMeta) : String × Source :=
  let course_title := meta.course_title.getD "unknown"
  let header :=
    "[" ++ course_title ++
      (match meta.lesson_number with
       | some n => " - Lesson " ++ toString n
       | none => "") ++ "]"
  let source_text :=
    course_title ++
      (match meta.lesson_number with
       | some n => " - Lesson " ++ toString n
       | none => "")
  let lesson_link :=
    match meta.lesson_number with
    | some n => get_lesson_link course_title n
    | none => none
  (header ++ "\n" ++ doc, { text := source_text, link := lesson_link })

/-- `CourseSearchTool._format_results`: zip documents with their metadata,
render each hit, join with blank lines, and return the fresh source list
that overwrites `self.last_sources`. -/
def format_results (get_lesson_link : String → Int → Option String)
    (results : SearchResults) : String × List Source :=
  let pairs := (results.documents.zip results.metadata).map
    (fun p => format_hit get_lesson_link p.1 p.2)
  (String.intercalate "\n\n" (pairs.map Prod.fst), pairs.map Prod.snd)

/-- `CourseSearchTool.execute`.  The vector store is abstracted by the
`results` it returned for this call and by its `get_lesson_link` lookup;
the tool's mutable `last_sources` field is threaded explicitly: the
returned pair is (reply text, `last_sources` after the call). -/
def execute (get_lesson_link : String → Int → Option String)
    (results : SearchResults) (last_sources : List Source)
    (course_name : Option String) (lesson_number : Option Int) :
    String × List Source :=
  if pyTruthyStr results.error then
    (results.error.getD "", last_sources)
  else if results.is_empty then
    let filter_info :=
      (if pyTruthyStr course_name then
        " in course \x27" ++ course_name.getD "" ++ "\x27"
      else "") ++
      (if pyTruthyInt lesson_number then
        " in lesson " ++ toString (lesson_number.getD 0)
      else "")
    ("No relevant content found" ++ filter_info ++ ".", last_sources)
  else
    format_results get_lesson_link results

end CourseSearchTool

/-- Display text the specification prescribes for the i-th citation of a
successful search: the hit's title, extended with the lesson segment only
when the hit carries a lesson number. -/
def specDisplayText (title : String) (lesson : Option Int) : String :=
  match lesson with
  | none => title
  | some n => title ++ " - Lesson " ++ toString n

/-- A lesson record as decoded from the catalog's `lessons_json` blob;
Python reads every field with `.get`, so all are optional. -/
structure LessonMeta where
  lesson_number : Option Int
  lesson_title : Option String
  lesson_link : Option String
deriving DecidableEq, Repr

/-- A course-catalog metadata entry as read by the outline tool. -/
structure CourseMetadata where
  title : Option String
  course_link : Option String
  instructor : Option String
  lessons_json : Option String
deriving DecidableEq, Repr

/-- Modelled from the spec: the retrieval collaborator's interface used by
the outline tool — fuzzy name resolution, the catalog title listing, and
catalog-by-title lookup (`None` models a lookup whose `metadatas` payload
is missing or empty). -/
structure VectorStoreModel where
  resolve_course_name : String → Option String
  existing_course_titles : List String
  catalog_get : String → Option CourseMetadata

namespace CourseOutlineTool

/-- One iteration of the lesson loop in `CourseOutlineTool._format_outline`:
the rendered line, plus the `Source` built when the lesson has a link. -/
def lesson_entry (course_title : String) (lesson : LessonMeta) :
    String × Option Source :=
  let line :=
    "- Lesson " ++ pyStrOptInt lesson.lesson_number ++ ": " ++
      lesson.lesson_title.getD "Untitled"
  let src :=
    if pyTruthyStr lesson.lesson_link then
      some { text := course_title ++ " - Lesson " ++
               pyStrOptInt lesson.lesson_number,
             link := lesson.lesson_link }
    else none
  (line, src)

/-- The `formatted` line list built by `CourseOutlineTool._format_outline`
before it is joined with newlines. -/
def outline_lines (course_title : String) (course_link : Option String)
    (instructor : String) (lessons : List LessonMeta) : List String :=
  ["Course: " ++ course_title] ++
    (if pyTruthyStr course_link then ["Link: " ++ course_link.getD ""]
     else []) ++
    ["Instructor: " ++ instructor, "", "Lessons:"] ++
    (if lessons.isEmpty then ["- No lessons available"]
     else (lessons.map (lesson_entry course_title)).map Prod.fst)

/-- The source list `CourseOutlineTool._format_outline` stores into
`self.last_sources`: one `Source` per lesson that carries a link. -/
def outline_sources (course_title : String) (lessons : List LessonMeta) :
    List Source :=
  ((lessons.map (lesson_entry course_title)).map Prod.snd).filterMap id

/-- `CourseOutlineTool._format_outline`: the joined outline text and the
fresh source list that overwrites `self.last_sources`. -/
def format_outline (course_title : String) (course_link : Option String)
    (instructor : String) (lessons : List LessonMeta) :
    String × List Source :=
  (String.intercalate "\n"
     (outline_lines course_title course_link instructor lessons),
   outline_sources course_title lessons)

/-- `CourseOutlineTool.execute`.  The vector store is abstracted by
`store`; `json_loads` models the JSON decoder, returning `none` exactly
when decoding raises `JSONDecodeError`.  The pair returned is (reply
text, `last_sources` after the call). -/
def execute (store : VectorStoreModel)
    (json_loads : String → Option (List LessonMeta))
    (last_sources : List Source) (course_name : String) :
    String × List Source :=
  let resolved_title := store.resolve_course_name course_name
  if !(pyTruthyStr resolved_title) then
    if !store.existing_course_titles.isEmpty then
      ("No course found matching \x27" ++ course_name ++
         "\x27. Available courses: " ++
         String.intercalate ", " store.existing_course_titles,
       last_sources)
    else
      ("No courses available in the system.", last_sources)
  else
    let t := resolved_title.getD ""
    match store.catalog_get t with
    | none =>
      ("Error: Unable to retrieve metadata for \x27" ++ t ++ "\x27",
       last_sources)
    | some metadata =>
      let lessons := (json_loads (metadata.lessons_json.getD "[]")).getD []
      format_outline (metadata.title.getD "Unknown") metadata.course_link
        (metadata.instructor.getD "Unknown") lessons

end CourseOutlineTool

/-- An Anthropic tool definition as consulted by the manager: only the
`name` key is read (with `.get`, so it is optional). -/
structure ToolDef where
  name : Option String

/-- A registered tool as the manager sees it: its definition, its
`execute(**kwargs)` output text, and its `last_sources` attribute
(`none` models a tool without that attribute, for the `hasattr` check). -/
structure MTool where
  tool_def : ToolDef
  run : List (String × String) → String
  last_sources : Option (List Source)

/-- Python truthiness of the optional `last_sources` attribute: absent or
empty is falsy. -/
def pyTruthySources : Option (List Source) → Bool
  | none => false
  | some l => !l.isEmpty

/-- Python dict assignment `d[k] = v`: overwrite in place if the key
exists (keeping its position), else append. -/
def dict_set (tm : List (String × MTool)) (k : String) (v : MTool) :
    List (String × MTool) :=
  if tm.any (fun p => p.1 == k) then
    tm.map (fun p => if p.1 == k then (k, v) else p)
  else
    tm ++ [(k, v)]

namespace ToolManager

/-- `ToolManager.register_tool`: raises `ValueError` (modelled as
`Except.error`) when the definition's name is missing or empty, otherwise
assigns the tool under its name in the dict. -/
def register_tool (tm : List (String × MTool)) (tool : MTool) :
    Except String (List (String × MTool)) :=
  let tool_name := tool.tool_def.name
  if pyTruthyStr tool_name then
    Except.ok (dict_set tm (tool_name.getD "") tool)
  else
    Except.error "Tool must have a \x27name\x27 in its definition"

/-- `ToolManager.execute_tool`: dispatch by name, or return the sentinel
text when the name is not registered. -/
def execute_tool (tm : List (String × MTool)) (tool_name : String)
    (kwargs : List (String × String)) : String :=
  match tm.find? (fun p => p.1 == tool_name) with
  | none => "Tool \x27" ++ tool_name ++ "\x27 not found"
  | some p => p.2.run kwargs

/-- `ToolManager.get_last_sources`: scan tools in registration order and
return the first truthy `last_sources`, else the empty list. -/
def get_last_sources : List (String × MTool) → List Source
  | [] => []
  | p :: rest =>
    if pyTruthySources p.2.last_sources then p.2.last_sources.getD []
    else get_last_sources rest

/-- `ToolManager.reset_sources`: set `last_sources` to `[]` on every tool
that has the attribute. -/
def reset_sources (tm : List (String × MTool)) :
    List (String × MTool) :=
  tm.map (fun p =>
    match p.2.last_sources with
    | some _ => (p.1, { p.2 with last_sources := some [] })
    | none => p)

end ToolManager

/-! Concrete instances used by counterexamples and witnesses. -/

/-- A tool named `"dup"` whose run output is `"A"`. -/
def toolA : MTool :=
  { tool_def := { name := some "dup" }, run := fun _ => "A",
    last_sources := none }

/-- A second tool also named `"dup"`, with run output `"B"`. -/
def toolB : MTool :=
  { tool_def := { name := some "dup" }, run := fun _ => "B",
    last_sources := none }

/-- A sample citation attributed to the search tool. -/
def srcA : Source := { text := "Test Course - Lesson 1", link := none }

/-- A sample citation attributed to the outline tool. -/
def srcB : Source := { text := "Test Course - Lesson 2", link := none }

/-- A search tool instance holding one accumulated citation. -/
def toolSearchEx : MTool :=
  { tool_def := { name := some "search_course_content" },
    run := fun _ => "search output", last_sources := some [srcA] }

/-- An outline tool instance holding one accumulated citation. -/
def toolOutlineEx : MTool :=
  { tool_def := { name := some "get_course_outline" },
    run := fun _ => "outline output", last_sources := some [srcB] }

/-- A registry in which both tools produced non-empty citation lists in
the same turn. -/
def tmBoth : List (String × MTool) :=
  [("search_course_content", toolSearchEx),
   ("get_course_outline", toolOutlineEx)]

/-- A lesson-link lookup that never resolves a link. -/
def glink0 : String → Int → Option String := fun _ _ => none

/-- A hit set with one document carrying a lesson number. -/
def results1 : SearchResults :=
  { documents := ["This is content from lesson 1 about basic concepts."],
    metadata := [{ course_title := some "Test Course",
                   lesson_number := some 1 }],
    error := none }

/-- A hit set with no documents and no error. -/
def resultsEmpty : SearchResults :=
  { documents := [], metadata := [], error := none }

/-- A hit set on which the collaborator reported an error message. -/
def resultsErr : SearchResults :=
  { documents := [], metadata := [],
    error := some "No course found matching \x27NonExistentCourse\x27" }

/-- A store with two catalog titles on which fuzzy resolution fails. -/
def storeTwoTitles : VectorStoreModel :=
  { resolve_course_name := fun _ => none,
    existing_course_titles := ["Course A", "Course B"],
    catalog_get := fun _ => none }

/-- A store with an empty catalog on which fuzzy resolution fails. -/
def storeEmpty : VectorStoreModel :=
  { resolve_course_name := fun _ => none,
    existing_course_titles := [],
    catalog_get := fun _ => none }

/-- A catalog entry whose lesson blob is not valid JSON. -/
def mdBadLessons : CourseMetadata :=
  { title := some "Test Course", course_link := none,
    instructor := some "Jane Doe", lessons_json := some "not json" }

/-- A store resolving every query to `"Test Course"`, whose catalog entry
carries the malformed lesson blob. -/
def storeBadLessons : VectorStoreModel :=
  { resolve_course_name := fun _ => some "Test Course",
    existing_course_titles := ["Test Course"],
    catalog_get := fun t =>
      if t == "Test Course" then some mdBadLessons else none }

/-- A JSON decoder that fails on every input, modelling a decoder hitting
`JSONDecodeError`. -/
def jsonLoadsFail : String → Option (List LessonMeta) := fun _ => none

/-! Theorems. -/

/-- C9: for every registry state, `reset_sources` followed immediately by
`get_last_sources` yields the empty sequence. -/
theorem clear_then_collect_empty (tm : List (String × MTool)) :
    ToolManager.get_last_sources (ToolManager.reset_sources tm) = [] := by
  induction tm with
  | nil => rfl
  | cons p rest ih =>
    cases h : p.2.last_sources with
    | none =>
      simp [ToolManager.reset_sources, ToolManager.get_last_sources,
        pyTruthySources, h] at ih ⊢
      simpa [ToolManager.reset_sources] using ih
    | some l =>
      simp [ToolManager.reset_sources, ToolManager.get_last_sources,
        pyTruthySources, h] at ih ⊢
      simpa [ToolManager.reset_sources] using ih

/-- Dispatch after registration finds the freshly assigned tool: the
first dict entry whose key is the assigned name holds the new value. -/
theorem find_dict_set (tm : List (String × MTool)) (nm : String)
    (v : MTool) :
    (dict_set tm nm v).find? (fun p => p.1 == nm) = some (nm, v) := by
  unfold dict_set
  by_cases h : tm.any (fun p => p.1 == nm)
  · rw [if_pos h]
    induction tm with
    | nil => cases h
    | cons q rest ih =>
      by_cases hq : q.1 == nm
      · simp [List.find?, hq]
      · have hrest : rest.any (fun p => p.1 == nm) := by
          simpa [List.any_cons, hq] using h
        simp only [List.map_cons, if_neg hq]
        rw [List.find?_cons_of_neg _ (by simpa using hq)]
        exact ih hrest
  · rw [if_neg h]
    induction tm with
    | nil => simp [List.find?]
    | cons q rest ih =>
      have hq : ¬(q.1 == nm) := by
        intro hcon
        exact h (by simp [List.any_cons, hcon])
      have hrest : ¬rest.any (fun p => p.1 == nm) := by
        intro hcon
        exact h (by simp [List.any_cons, hcon])
      rw [List.cons_append, List.find?_cons_of_neg _ (by simpa using hq)]
      exact ih hrest

/-- A registered (name, tool) pair is what name lookup finds, provided the
registry's keys are distinct (the dict invariant). -/
theorem find_registered_tool (nm : String) (tool : MTool)
    (tm : List (String × MTool)) :
    (tm.map Prod.fst).Nodup → (nm, tool) ∈ tm →
    tm.find? (fun p => p.1 == nm) = some (nm, tool) := by
  induction tm with
  | nil => intro _ h; cases h
  | cons q rest ih =>
    intro hnodup hmem
    rcases List.mem_cons.mp hmem with h | h
    · rw [← h]
      simp [List.find?]
    · rw [List.map_cons] at hnodup
      obtain ⟨h1, h2⟩ := List.nodup_cons.mp hnodup
      have hq : ¬(q.1 = nm) := by
        intro e
        have hin : nm ∈ rest.map Prod.fst := by
          have := List.mem_map_of_mem Prod.fst h
          simpa using this
        exact h1 (e ▸ hin)
      rw [List.find?_cons_of_neg _ (by simpa using hq)]
      exact ih h2 h

/-- C5: executing an unregistered name returns the sentinel text and does
not raise; executing a registered name returns that tool's output text. -/
theorem execute_tool_dispatch (tm : List (String × MTool)) (nm : String)
    (kwargs : List (String × String))
    (hnodup : (tm.map Prod.fst).Nodup) :
    ((∀ p ∈ tm, p.1 ≠ nm) →
       ToolManager.execute_tool tm nm kwargs =
         "Tool \x27" ++ nm ++ "\x27 not found") ∧
    (∀ tool, (nm, tool) ∈ tm →
       ToolManager.execute_tool tm nm kwargs = tool.run kwargs) := by
  constructor
  · intro h
    have hfind : tm.find? (fun p => p.1 == nm) = none := by
      rw [List.find?_eq_none]
      intro p hp
      simpa using h p hp
    simp [ToolManager.execute_tool, hfind]
  · intro tool hmem
    have hfind := find_registered_tool nm tool tm hnodup hmem
    simp [ToolManager.execute_tool, hfind]

/-- Witness for C5 at a concrete one-tool registry: the unknown name
`"missing_tool"` yields the sentinel, the registered name yields the
tool's output. -/
theorem execute_tool_dispatch_witness :
    ToolManager.execute_tool [("search_course_content", toolSearchEx)]
        "missing_tool" [] = "Tool \x27missing_tool\x27 not found" ∧
    ToolManager.execute_tool [("search_course_content", toolSearchEx)]
        "search_course_content" [] = "search output" := by
  constructor
  · exact (execute_tool_dispatch [("search_course_content", toolSearchEx)]
      "missing_tool" [] (by simp)).1 (by simp)
  · exact (execute_tool_dispatch [("search_course_content", toolSearchEx)]
      "search_course_content" [] (by simp)).2 toolSearchEx (by simp)

/-- C1 counterexample: registering a second tool whose name `"dup"` equals
an already-registered tool's name does not fail — it succeeds and silently
replaces the existing tool, so dispatch on `"dup"` now runs the new tool. -/
theorem register_duplicate_silently_replaces :
    ToolManager.register_tool [] toolA = Except.ok [("dup", toolA)] ∧
    ToolManager.register_tool [("dup", toolA)] toolB =
      Except.ok [("dup", toolB)] ∧
    ToolManager.execute_tool [("dup", toolB)] "dup" [] = "B" ∧
    ToolManager.execute_tool [("dup", toolA)] "dup" [] = "A" := by
  refine ⟨rfl, ?_, rfl, rfl⟩
  simp [ToolManager.register_tool, dict_set, toolA, toolB, pyTruthyStr]

/-- C1 amended: registration fails with the configuration error exactly
when the tool's definition lacks a name or has an empty name; registering
a tool under an already-registered name succeeds and silently replaces the
existing tool, so dispatch on that name afterwards runs the new tool. -/
theorem register_name_check_and_replace (tm : List (String × MTool))
    (tool : MTool) (kwargs : List (String × String)) :
    (pyTruthyStr tool.tool_def.name = false →
       ToolManager.register_tool tm tool =
         Except.error "Tool must have a \x27name\x27 in its definition") ∧
    (∀ nm, tool.tool_def.name = some nm → nm ≠ "" →
       ToolManager.register_tool tm tool =
         Except.ok (dict_set tm nm tool) ∧
       ToolManager.execute_tool (dict_set tm nm tool) nm kwargs =
         tool.run kwargs) := by
  constructor
  · intro h
    simp [ToolManager.register_tool, h]
  · intro nm hname hne
    have htruthy : pyTruthyStr tool.tool_def.name = true := by
      simp [pyTruthyStr, hname, hne]
    constructor
    · simp [ToolManager.register_tool, hname, pyTruthyStr, hne]
    · have hfind := find_dict_set tm nm tool
      simp [ToolManager.execute_tool, hfind]

/-- Witness for the amended C1 at concrete inputs: an unnamed tool is
refused; `toolB` registered over `toolA` under the shared name `"dup"`
succeeds and dispatch runs `toolB`. -/
theorem register_name_check_and_replace_witness :
    ToolManager.register_tool [("dup", toolA)]
        { tool_def := { name := none }, run := fun _ => "X",
          last_sources := none } =
      Except.error "Tool must have a \x27name\x27 in its definition" ∧
    ToolManager.execute_tool (dict_set [("dup", toolA)] "dup" toolB)
        "dup" [] = "B" := by
  constructor
  · exact (register_name_check_and_replace [("dup", toolA)]
      { tool_def := { name := none }, run := fun _ => "X",
        last_sources := none } []).1 rfl
  · exact ((register_name_check_and_replace [("dup", toolA)] toolB []).2
      "dup" rfl (by decide)).2

/-- C2 counterexample: with the search tool and the outline tool both
holding non-empty citation lists in the same turn, `get_last_sources`
returns only the first tool's list — the outline tool's citation is
absent, so the result is not the union of both lists. -/
theorem get_last_sources_not_union :
    ToolManager.get_last_sources tmBoth = [srcA] ∧
    srcB ∉ ToolManager.get_last_sources tmBoth ∧
    srcB ∈ [srcB] := by
  refine ⟨rfl, ?_, by simp⟩
  simp [ToolManager.get_last_sources, tmBoth, toolSearchEx, toolOutlineEx,
    pyTruthySources, srcA, srcB]

/-- C2 amended: `get_last_sources` returns the citation list of the first
registered tool whose accumulator is truthy (present and non-empty), not
the union; every tool registered before it contributes nothing. -/
theorem get_last_sources_first_nonempty (pre post : List (String × MTool))
    (nm : String) (tool : MTool) (l : List Source)
    (hpre : ∀ p ∈ pre, pyTruthySources p.2.last_sources = false)
    (ht : tool.last_sources = some l) (hl : l ≠ []) :
    ToolManager.get_last_sources (pre ++ (nm, tool) :: post) = l := by
  induction pre with
  | nil =>
    have htruthy : pyTruthySources (some l) = true := by
      simp [pyTruthySources, hl]
    simp [ToolManager.get_last_sources, ht, htruthy]
  | cons q rest ih =>
    have hq := hpre q (by simp)
    rw [List.cons_append]
    rw [ToolManager.get_last_sources, if_neg (by simp [hq])]
    exact ih (fun p hp => hpre p (by simp [hp]))

/-- Witness for the amended C2 on the concrete two-tool registry: with an
empty-accumulator tool registered first, the outline tool's list is the
one returned. -/
theorem get_last_sources_first_nonempty_witness :
    ToolManager.get_last_sources
        [("search_course_content",
          { tool_def := { name := some "search_course_content" },
            run := fun _ => "search output", last_sources := some [] }),
         ("get_course_outline", toolOutlineEx)] = [srcB] := by
  exact get_last_sources_first_nonempty
    [("search_course_content",
      { tool_def := { name := some "search_course_content" },
        run := fun _ => "search output", last_sources := some [] })]
    [] "get_course_outline" toolOutlineEx [srcB]
    (by intro p hp; simp at hp; rw [hp]; rfl) rfl (by simp)

/-- String concatenation is associative (via the underlying char lists). -/
theorem str_append_assoc (a b c : String) :
    a ++ b ++ c = a ++ (b ++ c) := by
  apply String.ext
  simp [String.data_append, List.append_assoc]

/-- C8 amended: a search on which the collaborator reported a non-empty
error message returns that message verbatim, character for character. -/
theorem error_returned_verbatim (glink : String → Int → Option String)
    (r : SearchResults) (prev : List Source) (cn : Option String)
    (ln : Option Int) (e : String)
    (herr : r.error = some e) (hne : e ≠ "") :
    (CourseSearchTool.execute glink r prev cn ln).1 = e := by
  have ht : pyTruthyStr (some e) = true := by
    simp [pyTruthyStr, hne]
  simp [CourseSearchTool.execute, herr, ht]

/-- Witness for the amended C8: the collaborator's concrete error message
is returned unchanged. -/
theorem error_returned_verbatim_witness :
    (CourseSearchTool.execute glink0 resultsErr [] none none).1 =
      "No course found matching \x27NonExistentCourse\x27" := by
  exact error_returned_verbatim glink0 resultsErr [] none none
    "No course found matching \x27NonExistentCourse\x27" rfl (by decide)

/-- C8 counterexample: when the collaborator reports an error whose
message is the empty string, the tool does not return it verbatim — the
empty-result message is produced instead, because the code tests the
error field for truthiness rather than presence. -/
theorem error_empty_string_not_verbatim :
    ({ documents := [], metadata := [], error := some "" } :
        SearchResults).error = some "" ∧
    (CourseSearchTool.execute glink0
        { documents := [], metadata := [], error := some "" }
        [] none none).1 = "No relevant content found." ∧
    "No relevant content found." ≠ "" := by
  refine ⟨rfl, ?_, by decide⟩
  rfl

/-- C10: when the search takes the error branch or the empty-result
branch, the citation accumulator is returned exactly as it was before the
call, so previously accumulated sources persist unchanged. -/
theorem error_or_empty_preserves_sources
    (glink : String → Int → Option String) (r : SearchResults)
    (prev : List Source) (cn : Option String) (ln : Option Int)
    (h : pyTruthyStr r.error = true ∨
         (pyTruthyStr r.error = false ∧ r.is_empty = true)) :
    (CourseSearchTool.execute glink r prev cn ln).2 = prev := by
  rcases h with h | ⟨h1, h2⟩
  · simp [CourseSearchTool.execute, h]
  · simp [CourseSearchTool.execute, h1, h2]

/-- Witness for C10: an erroring search and an empty search both leave
the previously accumulated source list `[srcA]` in place. -/
theorem error_or_empty_preserves_sources_witness :
    (CourseSearchTool.execute glink0 resultsErr [srcA] none none).2 =
      [srcA] ∧
    (CourseSearchTool.execute glink0 resultsEmpty [srcA] none none).2 =
      [srcA] := by
  constructor
  · exact error_or_empty_preserves_sources glink0 resultsErr [srcA]
      none none (Or.inl rfl)
  · exact error_or_empty_preserves_sources glink0 resultsEmpty [srcA]
      none none (Or.inr ⟨rfl, rfl⟩)

/-- C4 counterexample: with empty results and the supplied filters
`course_name=""`, `lesson_number=0`, no suffix is appended — both filters
are Python-falsy — although the claim requires the suffixes for every
supplied filter. -/
theorem empty_result_falsy_filters_no_suffix :
    (CourseSearchTool.execute glink0 resultsEmpty []
        (some "") (some 0)).1 = "No relevant content found." ∧
    "No relevant content found." ≠
      "No relevant content found in course \x27\x27 in lesson 0." := by
  exact ⟨rfl, by decide⟩

/-- C4 amended: on an empty error-free result set, the reply is exactly
`"No relevant content found."` when no truthy filter was supplied, and
the course and/or lesson suffix is appended exactly when the
corresponding filter is supplied and truthy (non-empty string, non-zero
number). -/
theorem empty_result_message (glink : String → Int → Option String)
    (r : SearchResults) (prev : List Source)
    (herr : pyTruthyStr r.error = false) (hemp : r.is_empty = true) :
    (CourseSearchTool.execute glink r prev none none).1 =
      "No relevant content found." ∧
    (∀ s, s ≠ "" →
       (CourseSearchTool.execute glink r prev (some s) none).1 =
         "No relevant content found" ++
           (" in course \x27" ++ (s ++ "\x27."))) ∧
    (∀ n : Int, n ≠ 0 →
       (CourseSearchTool.execute glink r prev none (some n)).1 =
         "No relevant content found" ++
           (" in lesson " ++ (toString n ++ "."))) ∧
    (∀ s, ∀ n : Int, s ≠ "" → n ≠ 0 →
       (CourseSearchTool.execute glink r prev (some s) (some n)).1 =
         "No relevant content found" ++ (" in course \x27" ++ (s ++
           ("\x27" ++ (" in lesson " ++ (toString n ++ ".")))))) := by
  have hsn : pyTruthyStr none = false := rfl
  have hin : pyTruthyInt none = false := rfl
  refine ⟨?_, ?_, ?_, ?_⟩
  · simp [CourseSearchTool.execute, herr, hemp, hsn, hin]
  · intro s hs
    have hcn : pyTruthyStr (some s) = true := by simp [pyTruthyStr, hs]
    simp [CourseSearchTool.execute, herr, hemp, hcn, hin,
      str_append_assoc]
  · intro n hn
    have hln : pyTruthyInt (some n) = true := by simp [pyTruthyInt, hn]
    simp [CourseSearchTool.execute, herr, hemp, hln, hsn,
      str_append_assoc]
  · intro s n hs hn
    have hcn : pyTruthyStr (some s) = true := by simp [pyTruthyStr, hs]
    have hln : pyTruthyInt (some n) = true := by simp [pyTruthyInt, hn]
    simp [CourseSearchTool.execute, herr, hemp, hcn, hln,
      str_append_assoc]

/-- Witness for the amended C4 at concrete inputs: no filters give the
bare message; the filter `course_name="MCP"` appends its suffix, so the
reply contains both the message and the course name. -/
theorem empty_result_message_witness :
    (CourseSearchTool.execute glink0 resultsEmpty [] none none).1 =
      "No relevant content found." ∧
    (CourseSearchTool.execute glink0 resultsEmpty [] (some "MCP")
        none).1 =
      "No relevant content found in course \x27MCP\x27." := by
  constructor
  · exact (empty_result_message glink0 resultsEmpty [] rfl rfl).1
  · exact (empty_result_message glink0 resultsEmpty [] rfl rfl).2.1
      "MCP" (by decide)

/-- C6: when fuzzy resolution of the course name fails, the outline tool
returns without raising — a message listing every known canonical title
comma-joined when the catalog is non-empty, and exactly the no-courses
message when the catalog is empty. -/
theorem outline_unresolved_course (store : VectorStoreModel)
    (json_loads : String → Option (List LessonMeta)) (prev : List Source)
    (course_name : String)
    (hres : store.resolve_course_name course_name = none) :
    (store.existing_course_titles ≠ [] →
       CourseOutlineTool.execute store json_loads prev course_name =
         ("No course found matching \x27" ++ course_name ++
            "\x27. Available courses: " ++
            String.intercalate ", " store.existing_course_titles,
          prev)) ∧
    (store.existing_course_titles = [] →
       CourseOutlineTool.execute store json_loads prev course_name =
         ("No courses available in the system.", prev)) := by
  constructor
  · intro h
    have he : store.existing_course_titles.isEmpty = false := by
      cases hc : store.existing_course_titles with
      | nil => exact absurd hc h
      | cons a l => rfl
    simp [CourseOutlineTool.execute, hres, he, pyTruthyStr]
  · intro h
    simp [CourseOutlineTool.execute, hres, h, pyTruthyStr]

/-- Witness for C6 at concrete stores: an unresolvable name against a
two-title catalog lists both titles; against an empty catalog it yields
the no-courses message. -/
theorem outline_unresolved_course_witness :
    CourseOutlineTool.execute storeTwoTitles jsonLoadsFail [] "MCP" =
      ("No course found matching \x27MCP\x27. Available courses: " ++
         "Course A, Course B", []) ∧
    CourseOutlineTool.execute storeEmpty jsonLoadsFail [] "MCP" =
      ("No courses available in the system.", []) := by
  constructor
  · exact (outline_unresolved_course storeTwoTitles jsonLoadsFail []
      "MCP" rfl).1 (by decide)
  · exact (outline_unresolved_course storeEmpty jsonLoadsFail []
      "MCP" rfl).2 rfl

/-- C7: a catalog entry whose lesson blob fails to decode degrades to the
empty lesson sequence — the tool still returns normally — and the
rendered outline contains the line `"- No lessons available"`. -/
theorem outline_malformed_lessons_degrade (store : VectorStoreModel)
    (json_loads : String → Option (List LessonMeta)) (prev : List Source)
    (course_name t : String) (md : CourseMetadata)
    (hres : store.resolve_course_name course_name = some t)
    (ht : t ≠ "") (hcat : store.catalog_get t = some md)
    (hbad : json_loads (md.lessons_json.getD "[]") = none) :
    CourseOutlineTool.execute store json_loads prev course_name =
      CourseOutlineTool.format_outline (md.title.getD "Unknown")
        md.course_link (md.instructor.getD "Unknown") [] ∧
    "- No lessons available" ∈
      CourseOutlineTool.outline_lines (md.title.getD "Unknown")
        md.course_link (md.instructor.getD "Unknown") [] := by
  have htr : pyTruthyStr (some t) = true := by simp [pyTruthyStr, ht]
  constructor
  · simp [CourseOutlineTool.execute, hres, htr, hcat, hbad]
  · cases h : pyTruthyStr md.course_link <;>
      simp [CourseOutlineTool.outline_lines, h]

/-- Witness for C7 at a concrete store whose catalog entry carries an
undecodable lesson blob. -/
theorem outline_malformed_lessons_degrade_witness :
    CourseOutlineTool.execute storeBadLessons jsonLoadsFail [] "Test" =
      CourseOutlineTool.format_outline "Test Course" none "Jane Doe"
        [] ∧
    "- No lessons available" ∈
      CourseOutlineTool.outline_lines "Test Course" none "Jane Doe"
        [] := by
  exact outline_malformed_lessons_degrade storeBadLessons jsonLoadsFail
    [] "Test" "Test Course" mdBadLessons rfl (by decide) rfl rfl

/-- C3: a successful search with k hits produces exactly k Source
entries, in hit order — the i-th entry's display text is the i-th hit's
title, with the lesson segment exactly when that hit carries a lesson
number — and the fresh list is independent of whatever the tool had
accumulated before the call (replacement, not appending). -/
theorem search_success_sources (glink : String → Int → Option String)
    (r : SearchResults) (prev : List Source) (cn : Option String)
    (ln : Option Int) (k : Nat)
    (herr : pyTruthyStr r.error = false)
    (hd : r.documents.length = k) (hm : r.metadata.length = k)
    (hk : 0 < k) :
    ((CourseSearchTool.execute glink r prev cn ln).2.length = k) ∧
    (∀ i (hm2 : i < r.metadata.length) (title : String),
       (r.metadata.get ⟨i, hm2⟩).course_title = some title →
       ((CourseSearchTool.execute glink r prev cn ln).2.map
           Source.text)[i]? =
         some (specDisplayText title
           (r.metadata.get ⟨i, hm2⟩).lesson_number)) ∧
    (∀ prev2, (CourseSearchTool.execute glink r prev2 cn ln).2 =
       (CourseSearchTool.execute glink r prev cn ln).2) := by
  have hdoc : r.documents ≠ [] := by
    intro h
    rw [h] at hd
    simp at hd
    omega
  have hne : r.is_empty = false := by
    show r.documents.isEmpty = false
    cases hh : r.documents with
    | nil => exact absurd hh hdoc
    | cons a l => rfl
  have hexec : ∀ p : List Source,
      CourseSearchTool.execute glink r p cn ln =
        CourseSearchTool.format_results glink r := by
    intro p
    simp [CourseSearchTool.execute, herr, hne]
  refine ⟨?_, ?_, ?_⟩
  · rw [hexec]
    simp [CourseSearchTool.format_results, List.length_zip, hd, hm]
  · intro i hm2 title htitle
    rw [hexec]
    have hiz : i < (r.documents.zip r.metadata).length := by
      rw [List.length_zip, hd, hm]
      omega
    simp only [CourseSearchTool.format_results, List.map_map,
      List.getElem?_map]
    rw [List.getElem?_eq_getElem hiz]
    simp only [List.get_eq_getElem] at htitle
    cases hl : r.metadata.get ⟨i, hm2⟩ with
    | mk ct lnum =>
      simp only [List.get_eq_getElem] at hl
      rw [hl] at htitle
      simp only at htitle
      cases lnum with
      | none =>
        simp [List.getElem_zip, CourseSearchTool.format_hit, hl, htitle,
          specDisplayText, String.append_empty,
          Function.comp]
      | some n =>
        simp [List.getElem_zip, CourseSearchTool.format_hit, hl, htitle,
          specDisplayText, str_append_assoc, Function.comp]
  · intro prev2
    rw [hexec, hexec]

/-- Witness for C3 at a concrete one-hit result set: exactly one Source
is produced and the list does not depend on the previous accumulator. -/
theorem search_success_sources_witness :
    (CourseSearchTool.execute glink0 results1 [srcB] none none).2.length
      = 1 ∧
    (CourseSearchTool.execute glink0 results1 [] none none).2 =
      (CourseSearchTool.execute glink0 results1 [srcB] none none).2 := by
  have h := search_success_sources glink0 results1 [srcB] none none 1
    rfl rfl rfl (by decide)
  exact ⟨h.1, h.2.2 []⟩
